import Mathlib

/-!
Shallow embedding of the police wanted-level / pursuit core and the combat
crime-reporting pipeline of the repository (src/systems/CombatSystem.ts,
the PoliceSystem class, entities/NPC.ts, entities/Vehicle.ts,
systems/NPCManager.ts, systems/VehicleManager.ts).

Conventions of the embedding:
* TypeScript `number` is modelled by `ℚ` (all quantities the verified
  claims touch are produced by `+`, `-`, `*`, `min`, `max` on literals,
  so no floating-point rounding is relevant to them).
* `Vector3` is a record of three rationals.  The engine call
  `Vector3.Distance(a, b) < r` (for a literal radius `r ≥ 0`) is embedded
  as the equivalent squared comparison `dist2 a b < r ^ 2`, keeping every
  definition executable over `ℚ`.
* Engine-supplied math on orientations (quaternion slerp, Euler
  conversion, `atan2`, `cos`, `sin`, vector normalisation, the constant π)
  is external per the spec; it is kept abstract as a parameter record
  `EngineOps Q` over an abstract orientation type `Q`.
* `Math.random()` draws are inputs: each call site receives its draws
  from an explicit oracle argument.
* Purely visual effects (muzzle flashes, bullet holes, blood splatter,
  DOM star updates, light-bar animation) and physics-engine side effects
  (forces, velocity clamps, resource disposal) have no bearing on the
  verified state and are omitted from the state records.
-/

unseal Rat.add Rat.mul Rat.sub Rat.inv Rat.ofScientific

structure Vec3 where
  x : ℚ
  y : ℚ
  z : ℚ
deriving DecidableEq, Repr

/-- Squared distance between two points; `Vector3.Distance(a,b) < r` for a
nonnegative radius `r` is embedded as `dist2 a b < r ^ 2`. -/
def dist2 (a b : Vec3) : ℚ :=
  (a.x - b.x) ^ 2 + (a.y - b.y) ^ 2 + (a.z - b.z) ^ 2

/-- Squared length of a vector (`v.length() > c` becomes `c ^ 2 < len2 v`). -/
def len2 (v : Vec3) : ℚ :=
  v.x ^ 2 + v.y ^ 2 + v.z ^ 2

/-- Abstract engine math over an abstract orientation (quaternion) type `Q`:
these operations belong to the excluded 3D/physics engine. -/
structure EngineOps (Q : Type) where
  idQuat : Q
  slerp : Q → Q → ℚ → Q
  fromEuler : ℚ → ℚ → ℚ → Q
  toEulerY : Q → ℚ
  atan2 : ℚ → ℚ → ℚ
  cosQ : ℚ → ℚ
  sinQ : ℚ → ℚ
  piQ : ℚ
  normalizeV : Vec3 → Vec3

/-- `Math.min` on rationals, in kernel-reducible `if` form. -/
def ratMin (a b : ℚ) : ℚ := if a ≤ b then a else b

/-- `Math.max` on rationals, in kernel-reducible `if` form. -/
def ratMax (a b : ℚ) : ℚ := if b ≤ a then a else b

/-- Computable ceiling on `ℚ` (used to count iterations of a JS
`for (i = lo; i < bound; i++)` loop with a non-integer bound). -/
def ceilQ (q : ℚ) : ℤ := -(Rat.floor (-q))

theorem ratMin_eq (a b : ℚ) : ratMin a b = min a b := (min_def a b).symm

theorem ratMax_eq (a b : ℚ) : ratMax a b = max a b := by
  rcases le_total a b with h | h
  · rcases h.lt_or_eq with h' | h'
    · simp [ratMax, max_eq_right h, not_le.mpr h', h'.le]
    · simp [ratMax, h']
  · simp [ratMax, max_eq_left h, h]

theorem ceilQ_eq (q : ℚ) : ceilQ q = ⌈q⌉ := by
  have hfl : Rat.floor (-q) = ⌊-q⌋ := by
    rw [Rat.floor_def' (-q), Rat.floor_def]
  rw [ceilQ, hfl, Int.floor_neg, neg_neg]

/-- Per-agent state of a police car: `'patrol' | 'chase' | 'search'`. -/
inductive CarState where
  | patrol
  | chase
  | search
deriving DecidableEq, Repr

/-- The `PoliceCar` record of the source (mesh position, rotation
quaternion, steering target, state); physics aggregate omitted. -/
structure PoliceCar (Q : Type) where
  pos : Vec3
  rotationQuaternion : Option Q
  targetPosition : Option Vec3
  state : CarState

/-- Mutable fields of the `PoliceSystem` class. -/
structure PoliceSystem (Q : Type) where
  policeCars : List (PoliceCar Q)
  wantedLevel : ℚ
  wantedDecayTimer : ℚ
  lastKnownPlayerPos : Option Vec3
  playerInSight : Bool
  crimeCooldown : ℚ

/-- `maxWantedLevel = 5`. -/
def maxWantedLevel : ℚ := 5

/-- `wantedDecayTime = 30` (seconds to lose one star when out of sight). -/
def wantedDecayTime : ℚ := 30

/-- Initial `PoliceSystem` field values (constructor only touches the UI). -/
def PoliceSystem.init {Q : Type} : PoliceSystem Q :=
  { policeCars := []
    wantedLevel := 0
    wantedDecayTimer := 0
    lastKnownPlayerPos := none
    playerInSight := false
    crimeCooldown := 0 }

/-- `addWantedLevel`: clamped add, reset decay timer (UI update omitted). -/
def PoliceSystem.addWantedLevel {Q : Type} (amount : ℚ) (st : PoliceSystem Q) :
    PoliceSystem Q :=
  { st with
      wantedLevel := ratMin maxWantedLevel (st.wantedLevel + amount)
      wantedDecayTimer := 0 }

/-- `spawnPoliceCar`: spawn at a random offset (`r.1`, `r.2` are the two
`Math.random()` draws) from the crime position; `createPoliceCar` returns a
car with identity rotation, no target and state `'chase'`. -/
def spawnPoliceCar {Q : Type} (ops : EngineOps Q) (r : ℚ × ℚ)
    (nearPosition : Vec3) : PoliceCar Q :=
  let angle := r.1 * ops.piQ * 2
  let distance := 50 + r.2 * 50
  { pos := ⟨nearPosition.x + ops.cosQ angle * distance, 0.5,
            nearPosition.z + ops.sinQ angle * distance⟩
    rotationQuaternion := some ops.idQuat
    targetPosition := none
    state := CarState.chase }

/-- `checkSpawnPolice`: `for (let i = currentPolice; i < desiredPolice; i++)
spawnPoliceCar(...)` with `desiredPolice = wantedLevel * 2`; the number of
iterations of the JS loop is `max 0 (⌈desired⌉ - current)`.  The oracle
`rnd` supplies the two random draws of the `i`-th spawn. -/
def PoliceSystem.checkSpawnPolice {Q : Type} (ops : EngineOps Q)
    (rnd : ℕ → ℚ × ℚ) (crimePosition : Vec3) (st : PoliceSystem Q) :
    PoliceSystem Q :=
  let desiredPolice := st.wantedLevel * 2
  let currentPolice := st.policeCars.length
  let count := (ceilQ desiredPolice - (currentPolice : ℤ)).toNat
  { st with
      policeCars := st.policeCars ++
        (List.range count).map fun k =>
          spawnPoliceCar ops (rnd (currentPolice + k)) crimePosition }

/-- `reportCrime(severity, position)`: dropped while the cooldown is
active; otherwise escalate, record the position, re-arm the 0.5 s
cooldown, and spawn police as needed. -/
def PoliceSystem.reportCrime {Q : Type} (ops : EngineOps Q)
    (rnd : ℕ → ℚ × ℚ) (severity : ℚ) (position : Vec3)
    (st : PoliceSystem Q) : PoliceSystem Q :=
  if 0 < st.crimeCooldown then st
  else
    let st1 := st.addWantedLevel severity
    let st2 := { st1 with
                  lastKnownPlayerPos := some position
                  crimeCooldown := 1/2 }
    st2.checkSpawnPolice ops rnd position

/-- `checkPlayerInSight`: some police car within distance 80 of the player. -/
def checkPlayerInSight {Q : Type} (cars : List (PoliceCar Q))
    (playerPosition : Vec3) : Bool :=
  cars.any fun police => decide (dist2 police.pos playerPosition < 80 ^ 2)

/-- Fresh random patrol target of `updatePoliceCar`'s wanted-level-0 branch:
`angle = random()*π*2`, `dist = 30 + random()*50`. -/
def freshPatrolTarget {Q : Type} (ops : EngineOps Q) (r : ℚ × ℚ)
    (pos : Vec3) : Vec3 :=
  let angle := r.1 * ops.piQ * 2
  let dist := 30 + r.2 * 50
  ⟨pos.x + ops.cosQ angle * dist, 0.5, pos.z + ops.sinQ angle * dist⟩

/-- Patrol-target re-roll of `updatePoliceCar`'s wanted-level-0 branch:
keep the current patrol target unless it is missing or within 5 units. -/
def patrolTargetOf {Q : Type} (ops : EngineOps Q) (r : ℚ × ℚ)
    (car : PoliceCar Q) : Vec3 :=
  match car.targetPosition with
  | none => freshPatrolTarget ops r car.pos
  | some t =>
      if dist2 car.pos t < 5 ^ 2 then freshPatrolTarget ops r car.pos
      else t

/-- Target/state decision section of `updatePoliceCar` (lines 386-409):
returns the updated car together with the chosen steering target, or
`none` for the early-`return` branch (wanted level positive, player far,
no last known position). -/
def decideCar {Q : Type} (ops : EngineOps Q) (r : ℚ × ℚ) (wantedLevel : ℚ)
    (lastKnownPlayerPos : Option Vec3) (playerPosition : Vec3)
    (car : PoliceCar Q) : Option (PoliceCar Q × Vec3) :=
  if wantedLevel = 0 then
    let tp := patrolTargetOf ops r car
    some ({ car with targetPosition := some tp, state := CarState.patrol }, tp)
  else if dist2 car.pos playerPosition < 100 ^ 2 then
    some ({ car with state := CarState.chase }, playerPosition)
  else
    match lastKnownPlayerPos with
    | some lk => some ({ car with state := CarState.search }, lk)
    | none => none

/-- Movement section of `updatePoliceCar`: if the planar distance to the
target exceeds 2, slerp the orientation toward the heading (force
application and velocity clamp act on the physics body only); then the
upright correction slerp. -/
def steerAndUpright {Q : Type} (ops : EngineOps Q) (dt : ℚ) (target : Vec3)
    (car : PoliceCar Q) : PoliceCar Q :=
  let dir : Vec3 := ⟨target.x - car.pos.x, 0, target.z - car.pos.z⟩
  let car2 :=
    if 2 ^ 2 < len2 dir then
      { car with rotationQuaternion := car.rotationQuaternion.map fun q =>
          let dirN := ops.normalizeV dir
          ops.slerp q (ops.fromEuler 0 (ops.atan2 dirN.x dirN.z) 0) (dt * 3) }
    else car
  { car2 with rotationQuaternion := car2.rotationQuaternion.map fun q =>
      ops.slerp q (ops.fromEuler 0 (ops.toEulerY q) 0) (dt * 2) }

/-- `updatePoliceCar`: decision section, then movement and upright
correction; the early-`return` branch leaves the car untouched. -/
def updatePoliceCar {Q : Type} (ops : EngineOps Q) (r : ℚ × ℚ) (dt : ℚ)
    (wantedLevel : ℚ) (lastKnownPlayerPos : Option Vec3)
    (playerPosition : Vec3) (car : PoliceCar Q) : PoliceCar Q :=
  match decideCar ops r wantedLevel lastKnownPlayerPos playerPosition car with
  | none => car
  | some (car1, target) => steerAndUpright ops dt target car1

/-- `PoliceSystem.update(deltaTime, playerPosition, playerVelocity)`:
cooldown tick-down, sight check, decay (one decrement per tick, pop one
car when over strength), then the per-car updates.  `rnd i` supplies the
random draws available to the `i`-th car's patrol re-roll. -/
def PoliceSystem.update {Q : Type} (ops : EngineOps Q) (rnd : ℕ → ℚ × ℚ)
    (dt : ℚ) (playerPosition _playerVelocity : Vec3) (st : PoliceSystem Q) :
    PoliceSystem Q :=
  let cd := ratMax 0 (st.crimeCooldown - dt)
  let inSight := checkPlayerInSight st.policeCars playerPosition
  let next :=
    if inSight then
      (st.wantedLevel, (0 : ℚ), some playerPosition, st.policeCars)
    else if 0 < st.wantedLevel then
      let t := st.wantedDecayTimer + dt
      if wantedDecayTime ≤ t then
        let w := ratMax 0 (st.wantedLevel - 1)
        let cars :=
          if w * 2 < (st.policeCars.length : ℚ) then st.policeCars.dropLast
          else st.policeCars
        (w, (0 : ℚ), st.lastKnownPlayerPos, cars)
      else
        (st.wantedLevel, t, st.lastKnownPlayerPos, st.policeCars)
    else
      (st.wantedLevel, st.wantedDecayTimer, st.lastKnownPlayerPos,
        st.policeCars)
  { policeCars :=
      (next.2.2.2.enum).map fun p =>
        updatePoliceCar ops (rnd p.1) dt next.1 next.2.2.1 playerPosition p.2
    wantedLevel := next.1
    wantedDecayTimer := next.2.1
    lastKnownPlayerPos := next.2.2.1
    playerInSight := inSight
    crimeCooldown := cd }

/-! ### Helper lemmas about per-car updates -/

theorem steerAndUpright_pos {Q : Type} (ops : EngineOps Q) (dt : ℚ)
    (target : Vec3) (car : PoliceCar Q) :
    (steerAndUpright ops dt target car).pos = car.pos := by
  unfold steerAndUpright
  dsimp only
  split <;> rfl

theorem steerAndUpright_state {Q : Type} (ops : EngineOps Q) (dt : ℚ)
    (target : Vec3) (car : PoliceCar Q) :
    (steerAndUpright ops dt target car).state = car.state := by
  unfold steerAndUpright
  dsimp only
  split <;> rfl

theorem decideCar_pos {Q : Type} (ops : EngineOps Q) (r : ℚ × ℚ) (w : ℚ)
    (lk : Option Vec3) (pp : Vec3) (car car1 : PoliceCar Q) (t : Vec3)
    (h : decideCar ops r w lk pp car = some (car1, t)) :
    car1.pos = car.pos := by
  unfold decideCar at h
  split at h
  · simp only [Option.some.injEq, Prod.mk.injEq] at h
    rw [← h.1]
  · split at h
    · simp only [Option.some.injEq, Prod.mk.injEq] at h
      rw [← h.1]
    · split at h
      · simp only [Option.some.injEq, Prod.mk.injEq] at h
        rw [← h.1]
      · exact absurd h (by simp)

theorem updatePoliceCar_pos {Q : Type} (ops : EngineOps Q) (r : ℚ × ℚ)
    (dt w : ℚ) (lk : Option Vec3) (pp : Vec3) (car : PoliceCar Q) :
    (updatePoliceCar ops r dt w lk pp car).pos = car.pos := by
  unfold updatePoliceCar
  rcases h : decideCar ops r w lk pp car with _ | ⟨car1, t⟩
  · rfl
  · rw [steerAndUpright_pos]
    exact decideCar_pos ops r w lk pp car car1 t h

theorem updatePoliceCar_state_of_decide {Q : Type} (ops : EngineOps Q)
    (r : ℚ × ℚ) (dt w : ℚ) (lk : Option Vec3) (pp : Vec3)
    (car car1 : PoliceCar Q) (t : Vec3)
    (h : decideCar ops r w lk pp car = some (car1, t)) :
    (updatePoliceCar ops r dt w lk pp car).state = car1.state := by
  unfold updatePoliceCar
  rw [h]
  exact steerAndUpright_state ops dt t car1

theorem updatePoliceCar_idle {Q : Type} (ops : EngineOps Q) (r : ℚ × ℚ)
    (dt w : ℚ) (lk : Option Vec3) (pp : Vec3) (car : PoliceCar Q)
    (h : decideCar ops r w lk pp car = none) :
    updatePoliceCar ops r dt w lk pp car = car := by
  unfold updatePoliceCar
  rw [h]

/-- Positions of the live police cars, in roster order. -/
def carPositions {Q : Type} (st : PoliceSystem Q) : List Vec3 :=
  st.policeCars.map fun c => c.pos

theorem enum_update_map_pos {Q : Type} (ops : EngineOps Q)
    (rnd : ℕ → ℚ × ℚ) (dt w : ℚ) (lk : Option Vec3) (pp : Vec3) :
    ∀ (l : List (PoliceCar Q)) (k : ℕ),
      ((List.enumFrom k l).map fun p =>
          updatePoliceCar ops (rnd p.1) dt w lk pp p.2).map (fun c => c.pos)
        = l.map fun c => c.pos
  | [], _ => rfl
  | c :: cs, k => by
      simp only [List.enumFrom, List.map_cons, updatePoliceCar_pos]
      rw [enum_update_map_pos ops rnd dt w lk pp cs (k + 1)]

/-- One `update` tick never adds cars and removes at most the most
recently spawned one: the position list of the resulting roster is the
original one or its `dropLast`. -/
theorem update_carPositions {Q : Type} (ops : EngineOps Q)
    (rnd : ℕ → ℚ × ℚ) (dt : ℚ) (pp pv : Vec3) (st : PoliceSystem Q) :
    carPositions (st.update ops rnd dt pp pv) = carPositions st
      ∨ carPositions (st.update ops rnd dt pp pv)
          = (st.policeCars.dropLast).map fun c => c.pos := by
  unfold PoliceSystem.update carPositions
  dsimp only
  rw [List.enum]
  split
  · left
    exact enum_update_map_pos ops rnd dt _ _ pp st.policeCars 0
  · split
    · split
      · split
        · right
          exact enum_update_map_pos ops rnd dt _ _ pp st.policeCars.dropLast 0
        · left
          exact enum_update_map_pos ops rnd dt _ _ pp st.policeCars 0
      · left
        exact enum_update_map_pos ops rnd dt _ _ pp st.policeCars 0
    · left
      exact enum_update_map_pos ops rnd dt _ _ pp st.policeCars 0

theorem update_carPositions_sublist {Q : Type} (ops : EngineOps Q)
    (rnd : ℕ → ℚ × ℚ) (dt : ℚ) (pp pv : Vec3) (st : PoliceSystem Q) :
    List.Sublist (carPositions (st.update ops rnd dt pp pv))
      (carPositions st) := by
  rcases update_carPositions ops rnd dt pp pv st with h | h
  · rw [h]
  · rw [h]
    exact List.Sublist.map _ (List.dropLast_sublist st.policeCars)

/-- If every (initial) car is out of the 80-unit sight radius of a point,
the sight check fails. -/
theorem sight_false_of_far {Q : Type} (cars : List (PoliceCar Q))
    (pp : Vec3) (h : ∀ c ∈ cars, ¬ dist2 c.pos pp < 80 ^ 2) :
    checkPlayerInSight cars pp = false := by
  rw [checkPlayerInSight]
  rw [List.any_eq_false]
  intro c hc
  simpa using h c hc

/-! ### Helper lemmas about `update` -/

theorem update_crimeCooldown {Q : Type} (ops : EngineOps Q)
    (rnd : ℕ → ℚ × ℚ) (dt : ℚ) (pp pv : Vec3) (st : PoliceSystem Q) :
    (st.update ops rnd dt pp pv).crimeCooldown
      = ratMax 0 (st.crimeCooldown - dt) := rfl

theorem update_sighted {Q : Type} (ops : EngineOps Q) (rnd : ℕ → ℚ × ℚ)
    (dt : ℚ) (pp pv : Vec3) (st : PoliceSystem Q)
    (h : checkPlayerInSight st.policeCars pp = true) :
    (st.update ops rnd dt pp pv).wantedLevel = st.wantedLevel
      ∧ (st.update ops rnd dt pp pv).wantedDecayTimer = 0
      ∧ (st.update ops rnd dt pp pv).lastKnownPlayerPos = some pp := by
  refine ⟨?_, ?_, ?_⟩ <;> simp [PoliceSystem.update, h]

theorem update_decay_fire {Q : Type} (ops : EngineOps Q) (rnd : ℕ → ℚ × ℚ)
    (dt : ℚ) (pp pv : Vec3) (st : PoliceSystem Q)
    (h : checkPlayerInSight st.policeCars pp = false)
    (hw : 0 < st.wantedLevel)
    (ht : wantedDecayTime ≤ st.wantedDecayTimer + dt) :
    (st.update ops rnd dt pp pv).wantedLevel = ratMax 0 (st.wantedLevel - 1)
      ∧ (st.update ops rnd dt pp pv).wantedDecayTimer = 0
      ∧ (st.update ops rnd dt pp pv).lastKnownPlayerPos
          = st.lastKnownPlayerPos := by
  refine ⟨?_, ?_, ?_⟩ <;> simp [PoliceSystem.update, h, hw, ht]

theorem update_decay_noFire {Q : Type} (ops : EngineOps Q)
    (rnd : ℕ → ℚ × ℚ) (dt : ℚ) (pp pv : Vec3) (st : PoliceSystem Q)
    (h : checkPlayerInSight st.policeCars pp = false)
    (hw : 0 < st.wantedLevel)
    (ht : ¬ wantedDecayTime ≤ st.wantedDecayTimer + dt) :
    (st.update ops rnd dt pp pv).wantedLevel = st.wantedLevel
      ∧ (st.update ops rnd dt pp pv).wantedDecayTimer
          = st.wantedDecayTimer + dt
      ∧ (st.update ops rnd dt pp pv).lastKnownPlayerPos
          = st.lastKnownPlayerPos := by
  refine ⟨?_, ?_, ?_⟩ <;> simp [PoliceSystem.update, h, hw, ht]

theorem update_calm {Q : Type} (ops : EngineOps Q) (rnd : ℕ → ℚ × ℚ)
    (dt : ℚ) (pp pv : Vec3) (st : PoliceSystem Q)
    (h : checkPlayerInSight st.policeCars pp = false)
    (hw : ¬ 0 < st.wantedLevel) :
    (st.update ops rnd dt pp pv).wantedLevel = st.wantedLevel
      ∧ (st.update ops rnd dt pp pv).wantedDecayTimer
          = st.wantedDecayTimer := by
  refine ⟨?_, ?_⟩ <;> simp [PoliceSystem.update, h, hw]

/-- Each tick performs at most one decrement (and never an increment). -/
theorem update_wanted_step {Q : Type} (ops : EngineOps Q)
    (rnd : ℕ → ℚ × ℚ) (dt : ℚ) (pp pv : Vec3) (st : PoliceSystem Q) :
    (st.update ops rnd dt pp pv).wantedLevel = st.wantedLevel
      ∨ (st.update ops rnd dt pp pv).wantedLevel
          = ratMax 0 (st.wantedLevel - 1) := by
  rcases hs : checkPlayerInSight st.policeCars pp with _ | _
  · by_cases hw : 0 < st.wantedLevel
    · by_cases ht : wantedDecayTime ≤ st.wantedDecayTimer + dt
      · exact Or.inr (update_decay_fire ops rnd dt pp pv st hs hw ht).1
      · exact Or.inl (update_decay_noFire ops rnd dt pp pv st hs hw ht).1
    · exact Or.inl (update_calm ops rnd dt pp pv st hs hw).1
  · exact Or.inl (update_sighted ops rnd dt pp pv st hs).1

/-! ### Tick / event sequences over the police system -/

/-- Arguments of one `PoliceSystem.update` call: the frame delta and the
player's position and velocity that frame, plus the random draws available
to that frame's patrol re-rolls. -/
structure TickArgs where
  dt : ℚ
  playerPos : Vec3
  playerVel : Vec3
  rnd : ℕ → ℚ × ℚ

/-- Run a list of update ticks in order. -/
def runTicks {Q : Type} (ops : EngineOps Q) :
    List TickArgs → PoliceSystem Q → PoliceSystem Q
  | [], st => st
  | a :: rest, st =>
      runTicks ops rest (st.update ops a.rnd a.dt a.playerPos a.playerVel)

/-- An externally observable interaction with the police system: either a
`reportCrime` call or an `update` tick. -/
inductive PoliceEvent where
  | report (severity : ℚ) (pos : Vec3) (rnd : ℕ → ℚ × ℚ)
  | tick (args : TickArgs)

/-- Run a list of interactions in order. -/
def runEvents {Q : Type} (ops : EngineOps Q) :
    List PoliceEvent → PoliceSystem Q → PoliceSystem Q
  | [], st => st
  | PoliceEvent.report s p rnd :: rest, st =>
      runEvents ops rest (st.reportCrime ops rnd s p)
  | PoliceEvent.tick a :: rest, st =>
      runEvents ops rest (st.update ops a.rnd a.dt a.playerPos a.playerVel)

/-! ### Combat pipeline (CombatSystem.shoot and its collaborators) -/

/-- Weapon table of `CombatSystem` (damage, range, fireRate). -/
structure WeaponStats where
  damage : ℚ
  range : ℚ
  fireRate : ℚ

/-- `this.weapons[weaponName]`: the static weapon lookup. -/
def weapons : String → Option WeaponStats
  | "Fists" => some ⟨10, 2, 2⟩
  | "Pistol" => some ⟨25, 100, 3⟩
  | "SMG" => some ⟨15, 80, 10⟩
  | "Shotgun" => some ⟨60, 30, 1⟩
  | _ => none

/-- NPC behavioural state (`'idle' | 'walking' | 'fleeing'`). -/
inductive NPCState where
  | idle
  | walking
  | fleeing
deriving DecidableEq, Repr

/-- Fields of `NPC` relevant to combat: position, health, state. -/
structure NPC where
  pos : Vec3
  health : ℚ
  state : NPCState

/-- `NPC.flee()`: switch to the fleeing state. -/
def NPC.flee (n : NPC) : NPC := { n with state := NPCState.fleeing }

/-- `NPC.takeDamage(amount)`: subtract health, flee, report whether the
NPC died (`die()` only disposes engine resources). -/
def NPC.takeDamage (amount : ℚ) (n : NPC) : Bool × NPC :=
  let n1 : NPC := { n with health := n.health - amount,
                           state := NPCState.fleeing }
  (decide (n1.health ≤ 0), n1)

/-- Fields of `Vehicle` relevant to combat: position, whether a driver is
present, AI-flee state. -/
structure Vehicle where
  pos : Vec3
  hasDriver : Bool
  isAIDriving : Bool
  aiTarget : Option Vec3

/-- `Vehicle.fleeFrom(position)`: ignored while the player drives;
otherwise start AI driving away from the position. -/
def Vehicle.fleeFrom {Q : Type} (ops : EngineOps Q) (position : Vec3)
    (v : Vehicle) : Vehicle :=
  if v.hasDriver then v
  else
    let fleeDir := ops.normalizeV
      ⟨v.pos.x - position.x, v.pos.y - position.y, v.pos.z - position.z⟩
    { v with
        isAIDriving := true
        aiTarget := some ⟨v.pos.x + fleeDir.x * 100, v.pos.y + fleeDir.y * 100,
                          v.pos.z + fleeDir.z * 100⟩ }

/-- `triggerNearbyPanic`: every NPC within 30 units of the shooter flees. -/
def triggerNearbyPanic (shooterPosition : Vec3) (npcs : List NPC) :
    List NPC :=
  npcs.map fun npc =>
    if dist2 npc.pos shooterPosition < 30 ^ 2 then npc.flee else npc

/-- `triggerVehicleFlee` / `VehicleManager.triggerFleeFrom` with radius 25. -/
def triggerVehicleFlee {Q : Type} (ops : EngineOps Q)
    (shooterPosition : Vec3) (vehicles : List Vehicle) : List Vehicle :=
  vehicles.map fun v =>
    if dist2 v.pos shooterPosition < 25 ^ 2 then v.fleeFrom ops shooterPosition
    else v

/-- What the engine ray pick (`scene.pickWithRay`) resolved the shot to:
the mesh of the `idx`-th managed NPC, or environment geometry. -/
inductive HitTarget where
  | npc (idx : ℕ)
  | environment
deriving DecidableEq, Repr

/-- A successful ray hit: picked point plus the picked mesh's identity. -/
structure RayHit where
  point : Vec3
  target : HitTarget

/-- The mutable state the combat pipeline touches: the NPC roster, the
vehicle roster, and the police system. -/
structure CombatState (Q : Type) where
  npcs : List NPC
  vehicles : List Vehicle
  police : PoliceSystem Q

/-- `CombatSystem.shoot(ray, weaponName, shooter)`.  The engine raycast
result is an input (`hit`); visual effects (muzzle flash, blood, bullet
holes) are omitted.  Order of effects follows the source: weapon lookup,
severity-1 crime report, NPC panic, vehicle flee, then hit resolution
with damage and the severity-2 kill report. -/
def shoot {Q : Type} (ops : EngineOps Q) (rnd : ℕ → ℚ × ℚ)
    (weaponName : String) (shooterPos : Vec3) (hit : Option RayHit)
    (st : CombatState Q) : CombatState Q :=
  match weapons weaponName with
  | none => st
  | some weapon =>
    let police1 := st.police.reportCrime ops rnd 1 shooterPos
    let npcs1 := triggerNearbyPanic shooterPos st.npcs
    let vehicles1 := triggerVehicleFlee ops shooterPos st.vehicles
    match hit with
    | none => { npcs := npcs1, vehicles := vehicles1, police := police1 }
    | some h =>
      if dist2 shooterPos h.point ≤ weapon.range ^ 2 then
        match h.target with
        | HitTarget.npc i =>
          match npcs1[i]? with
          | some n =>
              let dmg := NPC.takeDamage weapon.damage n
              let npcs2 := npcs1.set i dmg.2
              let police2 :=
                if dmg.1 then police1.reportCrime ops rnd 2 shooterPos
                else police1
              { npcs := npcs2, vehicles := vehicles1, police := police2 }
          | none =>
              { npcs := npcs1, vehicles := vehicles1, police := police1 }
        | HitTarget.environment =>
            { npcs := npcs1, vehicles := vehicles1, police := police1 }
      else { npcs := npcs1, vehicles := vehicles1, police := police1 }

/-! ### Concrete engine instantiations used by closed witness statements -/

/-- A concrete engine-math valuation over `Q := ℚ` (orientations read as
yaw angles), used to evaluate the embedding on closed inputs. -/
def opsQ : EngineOps ℚ :=
  { idQuat := 0
    slerp := fun _ b _ => b
    fromEuler := fun _ y _ => y
    toEulerY := id
    atan2 := fun _ _ => 0
    cosQ := fun _ => 1
    sinQ := fun _ => 0
    piQ := 3
    normalizeV := id }

/-- A fixed random oracle (every draw is 0). -/
def rndX : ℕ → ℚ × ℚ := fun _ => (0, 0)

/-! ### Helper lemmas about `reportCrime` -/

theorem reportCrime_dropped {Q : Type} (ops : EngineOps Q) (rnd : ℕ → ℚ × ℚ)
    (s : ℚ) (p : Vec3) (st : PoliceSystem Q) (h : 0 < st.crimeCooldown) :
    st.reportCrime ops rnd s p = st := by
  simp [PoliceSystem.reportCrime, h]

theorem reportCrime_cooldown_pos {Q : Type} (ops : EngineOps Q)
    (rnd : ℕ → ℚ × ℚ) (s : ℚ) (p : Vec3) (st : PoliceSystem Q) :
    0 < (st.reportCrime ops rnd s p).crimeCooldown := by
  unfold PoliceSystem.reportCrime
  split
  · assumption
  · norm_num [PoliceSystem.checkSpawnPolice, PoliceSystem.addWantedLevel]

/-- A `reportCrime` immediately following another `reportCrime` (with no
tick in between) is always dropped: the first call either left a positive
cooldown in place or re-armed it to 0.5 s. -/
theorem reportCrime_after_reportCrime {Q : Type} (ops : EngineOps Q)
    (rnd rnd' : ℕ → ℚ × ℚ) (s s' : ℚ) (p p' : Vec3) (st : PoliceSystem Q) :
    (st.reportCrime ops rnd s p).reportCrime ops rnd' s' p'
      = st.reportCrime ops rnd s p :=
  reportCrime_dropped ops rnd' s' p' _ (reportCrime_cooldown_pos ops rnd s p st)

theorem reportCrime_accepted_wantedLevel {Q : Type} (ops : EngineOps Q)
    (rnd : ℕ → ℚ × ℚ) (s : ℚ) (p : Vec3) (st : PoliceSystem Q)
    (h : ¬ 0 < st.crimeCooldown) :
    (st.reportCrime ops rnd s p).wantedLevel
      = ratMin 5 (st.wantedLevel + s) := by
  simp [PoliceSystem.reportCrime, h, PoliceSystem.checkSpawnPolice,
    PoliceSystem.addWantedLevel, maxWantedLevel]

theorem reportCrime_accepted_fields {Q : Type} (ops : EngineOps Q)
    (rnd : ℕ → ℚ × ℚ) (s : ℚ) (p : Vec3) (st : PoliceSystem Q)
    (h : ¬ 0 < st.crimeCooldown) :
    (st.reportCrime ops rnd s p).wantedDecayTimer = 0
      ∧ (st.reportCrime ops rnd s p).lastKnownPlayerPos = some p
      ∧ (st.reportCrime ops rnd s p).crimeCooldown = 1/2 := by
  refine ⟨?_, ?_, ?_⟩ <;>
    simp [PoliceSystem.reportCrime, h, PoliceSystem.checkSpawnPolice,
      PoliceSystem.addWantedLevel]

/-! ### Claim C9: unknown weapon names make `shoot` a no-op -/

/-- C9: for every `shoot` call whose weapon name is not in the weapon
table, the call is a complete no-op — no damage, no crime report, no NPC
panic, no vehicle flee; the whole combat/police state is returned
unchanged (and the result does not depend on the ray-hit input at all). -/
theorem unknown_weapon_shoot_noop {Q : Type} (ops : EngineOps Q)
    (rnd : ℕ → ℚ × ℚ) (weaponName : String) (shooterPos : Vec3)
    (hit : Option RayHit) (st : CombatState Q)
    (h : weapons weaponName = none) :
    shoot ops rnd weaponName shooterPos hit st = st := by
  unfold shoot
  rw [h]

theorem unknown_weapon_shoot_noop_witness :
    weapons "Rifle" = none
      ∧ shoot opsQ rndX "Rifle" ⟨0, 0, 0⟩
          (some ⟨⟨1, 0, 0⟩, HitTarget.environment⟩)
          ⟨[⟨⟨1, 0, 0⟩, 100, NPCState.walking⟩], [], PoliceSystem.init⟩
        = ⟨[⟨⟨1, 0, 0⟩, 100, NPCState.walking⟩], [], PoliceSystem.init⟩ :=
  ⟨rfl, unknown_weapon_shoot_noop opsQ rndX "Rifle" ⟨0, 0, 0⟩
    (some ⟨⟨1, 0, 0⟩, HitTarget.environment⟩)
    ⟨[⟨⟨1, 0, 0⟩, 100, NPCState.walking⟩], [], PoliceSystem.init⟩ rfl⟩

/-! ### Claim C1: a lethal shot issues two crime reports, but the second
is always swallowed by the cooldown armed by the first -/

/-- Combat state of the concrete lethal-shot scenario: one NPC with 10
health standing 5 units from the origin, no vehicles, fresh police
state. -/
def lethalShotState : CombatState ℚ :=
  { npcs := [⟨⟨5, 0, 0⟩, 10, NPCState.walking⟩]
    vehicles := []
    police := PoliceSystem.init }

/-- C1 counterexample: a Pistol shot (damage 25) killing a 10-health NPC
from a fresh police state leaves the wanted level at 1 — the cumulative
value 1 + 2 = 3 predicted by the claim is not reached, because the
severity-2 report falls inside the 0.5 s cooldown armed by the
severity-1 report of the same call. -/
theorem lethal_shot_cumulative_cex :
    (shoot opsQ rndX "Pistol" ⟨0, 0, 0⟩
        (some ⟨⟨5, 0, 0⟩, HitTarget.npc 0⟩) lethalShotState).police.wantedLevel
      = 1
      ∧ ((1 : ℚ) ≠ 1 + 2) := by
  constructor
  · decide
  · norm_num

/-- C1 (amended): on a lethal hit the call does issue both reports in
order — the resulting police state is exactly
`reportCrime 2 ∘ reportCrime 1` — but a `reportCrime` immediately
following a `reportCrime` is always dropped by the cooldown, so the
second report never contributes an escalation. -/
theorem lethal_shot_two_reports {Q : Type} (ops : EngineOps Q)
    (rnd : ℕ → ℚ × ℚ) (weaponName : String) (w : WeaponStats)
    (shooterPos : Vec3) (pt : Vec3) (i : ℕ) (npc : NPC)
    (st : CombatState Q)
    (hw : weapons weaponName = some w)
    (hnpc : st.npcs[i]? = some npc)
    (hrange : dist2 shooterPos pt ≤ w.range ^ 2)
    (hkill : npc.health - w.damage ≤ 0) :
    (shoot ops rnd weaponName shooterPos (some ⟨pt, HitTarget.npc i⟩)
        st).police
      = (st.police.reportCrime ops rnd 1 shooterPos).reportCrime ops rnd 2
          shooterPos
      ∧ (st.police.reportCrime ops rnd 1 shooterPos).reportCrime ops rnd 2
          shooterPos
        = st.police.reportCrime ops rnd 1 shooterPos := by
  refine ⟨?_, reportCrime_after_reportCrime ops rnd rnd 1 2 shooterPos
    shooterPos st.police⟩
  have hhealth :
      (if dist2 npc.pos shooterPos < 30 ^ 2 then npc.flee else npc).health
        = npc.health := by
    split <;> rfl
  have hmap : (triggerNearbyPanic shooterPos st.npcs)[i]?
      = some (if dist2 npc.pos shooterPos < 30 ^ 2 then npc.flee else npc) := by
    simp [triggerNearbyPanic, List.getElem?_map, hnpc]
  unfold shoot
  rw [hw]
  dsimp only
  rw [if_pos hrange]
  rw [hmap]
  dsimp only [NPC.takeDamage]
  rw [hhealth]
  rw [decide_eq_true hkill]
  rfl

theorem lethal_shot_two_reports_witness :
    (shoot opsQ rndX "Pistol" ⟨0, 0, 0⟩
        (some ⟨⟨5, 0, 0⟩, HitTarget.npc 0⟩) lethalShotState).police
      = (lethalShotState.police.reportCrime opsQ rndX 1 ⟨0, 0, 0⟩).reportCrime
          opsQ rndX 2 ⟨0, 0, 0⟩
      ∧ (lethalShotState.police.reportCrime opsQ rndX 1 ⟨0, 0, 0⟩).reportCrime
          opsQ rndX 2 ⟨0, 0, 0⟩
        = lethalShotState.police.reportCrime opsQ rndX 1 ⟨0, 0, 0⟩ :=
  lethal_shot_two_reports opsQ rndX "Pistol" ⟨25, 100, 3⟩ ⟨0, 0, 0⟩ ⟨5, 0, 0⟩
    0 ⟨⟨5, 0, 0⟩, 10, NPCState.walking⟩ lethalShotState rfl rfl
    (by norm_num [dist2]) (by norm_num)

/-! ### Claim C5: the 0.5 s report cooldown -/

theorem runTicks_cooldown_ge {Q : Type} (ops : EngineOps Q) :
    ∀ (ticks : List TickArgs) (st : PoliceSystem Q),
      st.crimeCooldown - (ticks.map TickArgs.dt).sum
        ≤ (runTicks ops ticks st).crimeCooldown
  | [], st => by simp [runTicks]
  | a :: rest, st => by
      have h1 := runTicks_cooldown_ge ops rest
        (st.update ops a.rnd a.dt a.playerPos a.playerVel)
      rw [update_crimeCooldown] at h1
      have h2 : st.crimeCooldown - a.dt ≤ ratMax 0 (st.crimeCooldown - a.dt) := by
        rw [ratMax_eq]
        exact le_max_right _ _
      have h3 : ((a :: rest).map TickArgs.dt).sum
          = a.dt + (rest.map TickArgs.dt).sum := by
        simp [List.sum_cons]
      rw [runTicks, h3]
      have h4 : st.crimeCooldown - (a.dt + (rest.map TickArgs.dt).sum)
          ≤ ratMax 0 (st.crimeCooldown - a.dt) - (rest.map TickArgs.dt).sum := by
        linarith
      exact le_trans h4 h1

/-- C5: a `reportCrime` call with the cooldown active is dropped with the
entire state (wanted level, decay timer, last-known position, cooldown,
police roster) unchanged; an accepted call re-arms the cooldown to 0.5 s;
and after an accepted call followed by ticks totalling less than 0.5 s,
the cooldown is still positive, so a second `reportCrime` call is dropped
— two calls separated by less than 0.5 s of ticked time produce at most
one escalation. -/
theorem report_cooldown_at_most_one_escalation {Q : Type} (ops : EngineOps Q) :
    (∀ (rnd : ℕ → ℚ × ℚ) (s : ℚ) (p : Vec3) (st : PoliceSystem Q),
        0 < st.crimeCooldown → st.reportCrime ops rnd s p = st)
    ∧ (∀ (rnd : ℕ → ℚ × ℚ) (s : ℚ) (p : Vec3) (st : PoliceSystem Q),
        ¬ 0 < st.crimeCooldown →
          (st.reportCrime ops rnd s p).crimeCooldown = 1/2)
    ∧ (∀ (rnd1 rnd2 : ℕ → ℚ × ℚ) (s1 s2 : ℚ) (p1 p2 : Vec3)
        (ticks : List TickArgs) (st : PoliceSystem Q),
        ¬ 0 < st.crimeCooldown →
        (ticks.map TickArgs.dt).sum < 1/2 →
        0 < (runTicks ops ticks (st.reportCrime ops rnd1 s1 p1)).crimeCooldown
          ∧ (runTicks ops ticks (st.reportCrime ops rnd1 s1 p1)).reportCrime
              ops rnd2 s2 p2
            = runTicks ops ticks (st.reportCrime ops rnd1 s1 p1)) := by
  refine ⟨fun rnd s p st h => reportCrime_dropped ops rnd s p st h,
    fun rnd s p st h => (reportCrime_accepted_fields ops rnd s p st h).2.2,
    fun rnd1 rnd2 s1 s2 p1 p2 ticks st h hsum => ?_⟩
  have hcd : (st.reportCrime ops rnd1 s1 p1).crimeCooldown = 1/2 :=
    (reportCrime_accepted_fields ops rnd1 s1 p1 st h).2.2
  have hge := runTicks_cooldown_ge ops ticks (st.reportCrime ops rnd1 s1 p1)
  rw [hcd] at hge
  have hpos : 0 < (runTicks ops ticks
      (st.reportCrime ops rnd1 s1 p1)).crimeCooldown := by linarith
  exact ⟨hpos, reportCrime_dropped ops rnd2 s2 p2 _ hpos⟩

theorem report_cooldown_at_most_one_escalation_witness :
    ((⟨[], 0, 0, none, false, 3/10⟩ : PoliceSystem ℚ).reportCrime opsQ rndX
        2 ⟨1, 0, 0⟩ = ⟨[], 0, 0, none, false, 3/10⟩)
    ∧ ((PoliceSystem.init (Q := ℚ)).reportCrime opsQ rndX 1
        ⟨0, 0, 0⟩).crimeCooldown = 1/2
    ∧ (0 < (runTicks opsQ [⟨1/4, ⟨500, 0, 0⟩, ⟨0, 0, 0⟩, rndX⟩]
          ((PoliceSystem.init (Q := ℚ)).reportCrime opsQ rndX 1
            ⟨0, 0, 0⟩)).crimeCooldown
      ∧ (runTicks opsQ [⟨1/4, ⟨500, 0, 0⟩, ⟨0, 0, 0⟩, rndX⟩]
          ((PoliceSystem.init (Q := ℚ)).reportCrime opsQ rndX 1
            ⟨0, 0, 0⟩)).reportCrime opsQ rndX 2 ⟨9, 0, 0⟩
        = runTicks opsQ [⟨1/4, ⟨500, 0, 0⟩, ⟨0, 0, 0⟩, rndX⟩]
            ((PoliceSystem.init (Q := ℚ)).reportCrime opsQ rndX 1
              ⟨0, 0, 0⟩)) :=
  ⟨(report_cooldown_at_most_one_escalation opsQ).1 rndX 2 ⟨1, 0, 0⟩
      ⟨[], 0, 0, none, false, 3/10⟩ (by norm_num),
    (report_cooldown_at_most_one_escalation opsQ).2.1 rndX 1 ⟨0, 0, 0⟩
      PoliceSystem.init (by norm_num [PoliceSystem.init]),
    (report_cooldown_at_most_one_escalation opsQ).2.2 rndX rndX 1 2
      ⟨0, 0, 0⟩ ⟨9, 0, 0⟩ [⟨1/4, ⟨500, 0, 0⟩, ⟨0, 0, 0⟩, rndX⟩]
      PoliceSystem.init (by norm_num [PoliceSystem.init]) (by norm_num)⟩

/-! ### Claim C7: a sighting blocks and resets decay -/

/-- C7: on any tick in which the offender is sighted (some car within the
80-unit radius), the wanted level is unchanged (no decay decrement) and
the decay timer is reset to 0; moreover from a zero decay timer a tick
shorter than the 30 s window never decrements — so a sighting at 29 s
into a window prevents the decrement at 30 s. -/
theorem sighting_blocks_decay {Q : Type} (ops : EngineOps Q) :
    (∀ (rnd : ℕ → ℚ × ℚ) (dt : ℚ) (pp pv : Vec3) (st : PoliceSystem Q),
        checkPlayerInSight st.policeCars pp = true →
          (st.update ops rnd dt pp pv).wantedLevel = st.wantedLevel
            ∧ (st.update ops rnd dt pp pv).wantedDecayTimer = 0)
    ∧ (∀ (rnd : ℕ → ℚ × ℚ) (dt : ℚ) (pp pv : Vec3) (st : PoliceSystem Q),
        st.wantedDecayTimer = 0 → dt < wantedDecayTime →
          (st.update ops rnd dt pp pv).wantedLevel = st.wantedLevel) := by
  constructor
  · intro rnd dt pp pv st h
    exact ⟨(update_sighted ops rnd dt pp pv st h).1,
      (update_sighted ops rnd dt pp pv st h).2.1⟩
  · intro rnd dt pp pv st ht hdt
    rcases hs : checkPlayerInSight st.policeCars pp with _ | _
    · by_cases hw : 0 < st.wantedLevel
      · have hnf : ¬ wantedDecayTime ≤ st.wantedDecayTimer + dt := by
          rw [ht]
          simpa using not_le.mpr hdt
        exact (update_decay_noFire ops rnd dt pp pv st hs hw hnf).1
      · exact (update_calm ops rnd dt pp pv st hs hw).1
    · exact (update_sighted ops rnd dt pp pv st hs).1

theorem sighting_blocks_decay_witness :
    ((⟨[⟨⟨0, 0, 0⟩, some 0, none, CarState.chase⟩], 3, 29, none, false, 0⟩
          : PoliceSystem ℚ).update opsQ rndX 1 ⟨10, 0, 0⟩
        ⟨0, 0, 0⟩).wantedLevel = 3
    ∧ ((⟨[⟨⟨0, 0, 0⟩, some 0, none, CarState.chase⟩], 3, 29, none, false, 0⟩
          : PoliceSystem ℚ).update opsQ rndX 1 ⟨10, 0, 0⟩
        ⟨0, 0, 0⟩).wantedDecayTimer = 0
    ∧ ((⟨[], 3, 0, none, false, 0⟩ : PoliceSystem ℚ).update opsQ rndX 29
        ⟨10, 0, 0⟩ ⟨0, 0, 0⟩).wantedLevel = 3 :=
  ⟨((sighting_blocks_decay opsQ).1 rndX 1 ⟨10, 0, 0⟩ ⟨0, 0, 0⟩
      ⟨[⟨⟨0, 0, 0⟩, some 0, none, CarState.chase⟩], 3, 29, none, false, 0⟩
      (by decide)).1,
    ((sighting_blocks_decay opsQ).1 rndX 1 ⟨10, 0, 0⟩ ⟨0, 0, 0⟩
      ⟨[⟨⟨0, 0, 0⟩, some 0, none, CarState.chase⟩], 3, 29, none, false, 0⟩
      (by decide)).2,
    (sighting_blocks_decay opsQ).2 rndX 29 ⟨10, 0, 0⟩ ⟨0, 0, 0⟩
      ⟨[], 3, 0, none, false, 0⟩ rfl (by norm_num [wantedDecayTime])⟩

/-! ### Claim C6: per-agent state transition determinism -/

theorem decideCar_zero {Q : Type} (ops : EngineOps Q) (r : ℚ × ℚ) (wl : ℚ)
    (lk : Option Vec3) (pp : Vec3) (car : PoliceCar Q) (h : wl = 0) :
    decideCar ops r wl lk pp car
      = some
          ({ car with
              targetPosition := some (patrolTargetOf ops r car)
              state := CarState.patrol },
            patrolTargetOf ops r car) := by
  simp [decideCar, h]

theorem decideCar_chase {Q : Type} (ops : EngineOps Q) (r : ℚ × ℚ) (wl : ℚ)
    (lk : Option Vec3) (pp : Vec3) (car : PoliceCar Q) (h : ¬ wl = 0)
    (hd : dist2 car.pos pp < 100 ^ 2) :
    decideCar ops r wl lk pp car
      = some ({ car with state := CarState.chase }, pp) := by
  simp [decideCar, h, hd]

theorem decideCar_search {Q : Type} (ops : EngineOps Q) (r : ℚ × ℚ)
    (wl : ℚ) (lkp : Vec3) (pp : Vec3) (car : PoliceCar Q) (h : ¬ wl = 0)
    (hd : ¬ dist2 car.pos pp < 100 ^ 2) :
    decideCar ops r wl (some lkp) pp car
      = some ({ car with state := CarState.search }, lkp) := by
  simp [decideCar, h, hd]

theorem decideCar_idle {Q : Type} (ops : EngineOps Q) (r : ℚ × ℚ) (wl : ℚ)
    (pp : Vec3) (car : PoliceCar Q) (h : ¬ wl = 0)
    (hd : ¬ dist2 car.pos pp < 100 ^ 2) :
    decideCar ops r wl none pp car = none := by
  simp [decideCar, h, hd]

/-- C6: on every per-car update tick, if the wanted level is 0 the car's
state becomes `patrol` regardless of its distance to the offender; else
if the squared distance to the offender is below 100² the state becomes
`chase` with the live offender position as the steering target; else if a
last-known position is set the state becomes `search` with that position
as the target; else the car receives no movement update at all that
tick. -/
theorem police_state_transitions {Q : Type} (ops : EngineOps Q) (r : ℚ × ℚ)
    (dt wl : ℚ) (lk : Option Vec3) (pp : Vec3) (car : PoliceCar Q) :
    (wl = 0 →
        (updatePoliceCar ops r dt wl lk pp car).state = CarState.patrol)
    ∧ (wl ≠ 0 → dist2 car.pos pp < 100 ^ 2 →
        decideCar ops r wl lk pp car
            = some ({ car with state := CarState.chase }, pp)
          ∧ (updatePoliceCar ops r dt wl lk pp car).state = CarState.chase)
    ∧ (∀ lkp : Vec3, wl ≠ 0 → ¬ dist2 car.pos pp < 100 ^ 2 →
        lk = some lkp →
        decideCar ops r wl lk pp car
            = some ({ car with state := CarState.search }, lkp)
          ∧ (updatePoliceCar ops r dt wl lk pp car).state = CarState.search)
    ∧ (wl ≠ 0 → ¬ dist2 car.pos pp < 100 ^ 2 → lk = none →
        updatePoliceCar ops r dt wl lk pp car = car) := by
  refine ⟨?_, ?_, ?_, ?_⟩
  · intro h0
    rw [updatePoliceCar_state_of_decide ops r dt wl lk pp car _ _
      (decideCar_zero ops r wl lk pp car h0)]
  · intro h0 hd
    refine ⟨decideCar_chase ops r wl lk pp car h0 hd, ?_⟩
    rw [updatePoliceCar_state_of_decide ops r dt wl lk pp car _ _
      (decideCar_chase ops r wl lk pp car h0 hd)]
  · intro lkp h0 hd hl
    subst hl
    refine ⟨decideCar_search ops r wl lkp pp car h0 hd, ?_⟩
    rw [updatePoliceCar_state_of_decide ops r dt wl (some lkp) pp car _ _
      (decideCar_search ops r wl lkp pp car h0 hd)]
  · intro h0 hd hl
    subst hl
    exact updatePoliceCar_idle ops r dt wl none pp car
      (decideCar_idle ops r wl pp car h0 hd)

theorem police_state_transitions_witness :
    ((updatePoliceCar opsQ (0, 0) 1 0 none ⟨3, 0, 0⟩
        ⟨⟨0, 0, 0⟩, some 0, none, CarState.chase⟩).state = CarState.patrol)
    ∧ (decideCar opsQ (0, 0) 1 (some ⟨7, 0, 7⟩) ⟨3, 0, 0⟩
          ⟨⟨0, 0, 0⟩, some 0, none, CarState.patrol⟩
        = some (⟨⟨0, 0, 0⟩, some 0, none, CarState.chase⟩, ⟨3, 0, 0⟩)
      ∧ (updatePoliceCar opsQ (0, 0) 1 1 (some ⟨7, 0, 7⟩) ⟨3, 0, 0⟩
          ⟨⟨0, 0, 0⟩, some 0, none, CarState.patrol⟩).state = CarState.chase)
    ∧ (decideCar opsQ (0, 0) 1 (some ⟨7, 0, 7⟩) ⟨200, 0, 0⟩
          ⟨⟨0, 0, 0⟩, some 0, none, CarState.patrol⟩
        = some (⟨⟨0, 0, 0⟩, some 0, none, CarState.search⟩, ⟨7, 0, 7⟩)
      ∧ (updatePoliceCar opsQ (0, 0) 1 1 (some ⟨7, 0, 7⟩) ⟨200, 0, 0⟩
          ⟨⟨0, 0, 0⟩, some 0, none, CarState.patrol⟩).state = CarState.search)
    ∧ (updatePoliceCar opsQ (0, 0) 1 1 none ⟨200, 0, 0⟩
          ⟨⟨0, 0, 0⟩, some 0, none, CarState.patrol⟩
        = ⟨⟨0, 0, 0⟩, some 0, none, CarState.patrol⟩) :=
  ⟨(police_state_transitions opsQ (0, 0) 1 0 none ⟨3, 0, 0⟩
      ⟨⟨0, 0, 0⟩, some 0, none, CarState.chase⟩).1 rfl,
    (police_state_transitions opsQ (0, 0) 1 1 (some ⟨7, 0, 7⟩) ⟨3, 0, 0⟩
      ⟨⟨0, 0, 0⟩, some 0, none, CarState.patrol⟩).2.1 (by norm_num)
      (by norm_num [dist2]),
    (police_state_transitions opsQ (0, 0) 1 1 (some ⟨7, 0, 7⟩) ⟨200, 0, 0⟩
      ⟨⟨0, 0, 0⟩, some 0, none, CarState.patrol⟩).2.2.1 ⟨7, 0, 7⟩
      (by norm_num) (by norm_num [dist2]) rfl,
    (police_state_transitions opsQ (0, 0) 1 1 none ⟨200, 0, 0⟩
      ⟨⟨0, 0, 0⟩, some 0, none, CarState.patrol⟩).2.2.2 (by norm_num)
      (by norm_num [dist2]) rfl⟩

/-! ### Claim C8: the upright-correction slerp and the idle branch -/

/-- The police car's resulting orientation is the upright-correction
slerp (toward zero roll/pitch, i.e. toward `fromEuler 0 (toEulerY q) 0`)
of some intermediate orientation `q`. -/
def uprightApplied {Q : Type} (ops : EngineOps Q) (dt : ℚ)
    (carOut : PoliceCar Q) : Prop :=
  ∃ q, carOut.rotationQuaternion
    = some (ops.slerp q (ops.fromEuler 0 (ops.toEulerY q) 0) (dt * 2))

theorem steerAndUpright_rot {Q : Type} (ops : EngineOps Q) (dt : ℚ)
    (target : Vec3) (car : PoliceCar Q) (q : Q)
    (hq : car.rotationQuaternion = some q) :
    uprightApplied ops dt (steerAndUpright ops dt target car) := by
  unfold steerAndUpright
  dsimp only
  split
  · exact ⟨_, by rw [hq]; rfl⟩
  · exact ⟨q, by rw [hq]; rfl⟩

/-- The engine valuation used by the C8 counterexample: `slerp` snaps to
its second argument and `fromEuler` collapses to the orientation `0`, so
an upright-corrected car always ends with orientation `some 0`. -/
def ops8 : EngineOps ℚ :=
  { idQuat := 0
    slerp := fun _ b _ => b
    fromEuler := fun _ _ _ => 0
    toEulerY := id
    atan2 := fun _ _ => 0
    cosQ := fun _ => 1
    sinQ := fun _ => 0
    piQ := 3
    normalizeV := id }

/-- C8 counterexample: in the idle branch (wanted level 1, offender 200
units away, no last-known position) the per-car update returns before the
upright correction: the orientation stays `some 5`, while any
upright-corrected result under `ops8` would be `some 0` — so the claim
that the upright slerp is applied regardless of state (including idle)
fails. -/
theorem upright_correction_cex :
    (updatePoliceCar ops8 (0, 0) 1 1 none ⟨200, 0, 0⟩
        ⟨⟨0, 1/2, 0⟩, some 5, none, CarState.chase⟩)
      = ⟨⟨0, 1/2, 0⟩, some 5, none, CarState.chase⟩
    ∧ ¬ uprightApplied ops8 1 (updatePoliceCar ops8 (0, 0) 1 1 none
        ⟨200, 0, 0⟩ ⟨⟨0, 1/2, 0⟩, some 5, none, CarState.chase⟩) := by
  have h1 : updatePoliceCar ops8 (0, 0) 1 1 none ⟨200, 0, 0⟩
      ⟨⟨0, 1/2, 0⟩, some 5, none, CarState.chase⟩
      = ⟨⟨0, 1/2, 0⟩, some 5, none, CarState.chase⟩ :=
    updatePoliceCar_idle ops8 (0, 0) 1 1 none ⟨200, 0, 0⟩ _
      (decideCar_idle ops8 (0, 0) 1 ⟨200, 0, 0⟩ _ (by norm_num)
        (by norm_num [dist2]))
  refine ⟨h1, ?_⟩
  intro hcon
  rcases hcon with ⟨q, hq⟩
  rw [h1] at hq
  simp only [ops8] at hq
  exact absurd (Option.some.inj hq) (by norm_num)

/-- C8 (amended): whenever the decision section resolves a steering
target (patrol, chase or search), the upright-correction slerp is applied
to the car's orientation that tick; but in the idle branch (wanted level
positive, offender at squared distance ≥ 100², no last-known position)
the update returns early and the orientation — like the whole car — is
left untouched. -/
theorem upright_correction_states {Q : Type} (ops : EngineOps Q)
    (r : ℚ × ℚ) (dt wl : ℚ) (lk : Option Vec3) (pp : Vec3)
    (car : PoliceCar Q) (q : Q)
    (hq : car.rotationQuaternion = some q) :
    ((decideCar ops r wl lk pp car).isSome = true →
        uprightApplied ops dt (updatePoliceCar ops r dt wl lk pp car))
    ∧ (decideCar ops r wl lk pp car = none →
        updatePoliceCar ops r dt wl lk pp car = car) := by
  constructor
  · intro hsome
    rcases hd : decideCar ops r wl lk pp car with _ | ⟨car1, t⟩
    · rw [hd] at hsome
      simp at hsome
    · have hrot : car1.rotationQuaternion = some q := by
        unfold decideCar at hd
        split at hd
        · simp only [Option.some.injEq, Prod.mk.injEq] at hd
          rw [← hd.1, hq]
        · split at hd
          · simp only [Option.some.injEq, Prod.mk.injEq] at hd
            rw [← hd.1, hq]
          · split at hd
            · simp only [Option.some.injEq, Prod.mk.injEq] at hd
              rw [← hd.1, hq]
            · exact absurd hd (by simp)
      have : updatePoliceCar ops r dt wl lk pp car
          = steerAndUpright ops dt t car1 := by
        unfold updatePoliceCar
        rw [hd]
      rw [this]
      exact steerAndUpright_rot ops dt t car1 q hrot
  · exact updatePoliceCar_idle ops r dt wl lk pp car

theorem upright_correction_states_witness :
    uprightApplied opsQ 1 (updatePoliceCar opsQ (0, 0) 1 0 none ⟨300, 0, 0⟩
        ⟨⟨0, 0, 0⟩, some 2, none, CarState.chase⟩)
    ∧ updatePoliceCar opsQ (0, 0) 1 1 none ⟨300, 0, 0⟩
        ⟨⟨0, 0, 0⟩, some 2, none, CarState.chase⟩
      = ⟨⟨0, 0, 0⟩, some 2, none, CarState.chase⟩ :=
  ⟨(upright_correction_states opsQ (0, 0) 1 0 none ⟨300, 0, 0⟩
      ⟨⟨0, 0, 0⟩, some 2, none, CarState.chase⟩ 2 rfl).1 (by decide),
    (upright_correction_states opsQ (0, 0) 1 1 none ⟨300, 0, 0⟩
      ⟨⟨0, 0, 0⟩, some 2, none, CarState.chase⟩ 2 rfl).2
      (decideCar_idle opsQ (0, 0) 1 ⟨300, 0, 0⟩ _ (by norm_num)
        (by norm_num [dist2]))⟩

/-! ### Claim C10: acceptance side effects at the maximum wanted level -/

/-- C10 counterexample: an accepted report with (negative) severity -1 at
wanted level 5 lowers the level to 4 — `addWantedLevel` clamps only from
above (`min(5, w + severity)`), so "the wanted level stays 5" fails for
severities below 0. -/
theorem max_level_report_cex :
    ((⟨[], 5, 0, none, false, 0⟩ : PoliceSystem ℚ).reportCrime opsQ rndX
        (-1) ⟨1, 2, 3⟩).wantedLevel = 4
    ∧ ((4 : ℚ) ≠ 5) := by
  constructor
  · decide
  · norm_num

/-- C10 (amended): for every accepted `reportCrime` call with
*nonnegative* severity made at wanted level 5, the level stays 5, the
decay timer is reset to 0, the last-known position is overwritten with
the report's position, and the cooldown is re-armed to 0.5 s. -/
theorem max_level_report_side_effects {Q : Type} (ops : EngineOps Q)
    (rnd : ℕ → ℚ × ℚ) (s : ℚ) (p : Vec3) (st : PoliceSystem Q)
    (hcd : ¬ 0 < st.crimeCooldown) (hmax : st.wantedLevel = 5)
    (hs : 0 ≤ s) :
    (st.reportCrime ops rnd s p).wantedLevel = 5
      ∧ (st.reportCrime ops rnd s p).wantedDecayTimer = 0
      ∧ (st.reportCrime ops rnd s p).lastKnownPlayerPos = some p
      ∧ (st.reportCrime ops rnd s p).crimeCooldown = 1/2 := by
  have h1 := reportCrime_accepted_wantedLevel ops rnd s p st hcd
  rw [hmax] at h1
  have h2 : ratMin 5 (5 + s) = 5 := by
    rw [ratMin_eq]
    exact min_eq_left (by linarith)
  rw [h2] at h1
  exact ⟨h1, reportCrime_accepted_fields ops rnd s p st hcd⟩

theorem max_level_report_side_effects_witness :
    ((⟨[], 5, 7, some ⟨0, 0, 0⟩, false, 0⟩ : PoliceSystem ℚ).reportCrime
        opsQ rndX 2 ⟨4, 0, 4⟩).wantedLevel = 5
    ∧ ((⟨[], 5, 7, some ⟨0, 0, 0⟩, false, 0⟩ : PoliceSystem ℚ).reportCrime
        opsQ rndX 2 ⟨4, 0, 4⟩).wantedDecayTimer = 0
    ∧ ((⟨[], 5, 7, some ⟨0, 0, 0⟩, false, 0⟩ : PoliceSystem ℚ).reportCrime
        opsQ rndX 2 ⟨4, 0, 4⟩).lastKnownPlayerPos = some ⟨4, 0, 4⟩
    ∧ ((⟨[], 5, 7, some ⟨0, 0, 0⟩, false, 0⟩ : PoliceSystem ℚ).reportCrime
        opsQ rndX 2 ⟨4, 0, 4⟩).crimeCooldown = 1/2 :=
  max_level_report_side_effects opsQ rndX 2 ⟨4, 0, 4⟩
    ⟨[], 5, 7, some ⟨0, 0, 0⟩, false, 0⟩ (by norm_num) rfl (by norm_num)

/-! ### Claim C2: fleet sizing on reports and decay decrements -/

/-- C2 counterexample: one accepted severity-1 crime (wanted level 1, two
cars spawned), then a single 30-second no-sight tick: the level decays to
0 but only one car is removed, leaving 1 car — not `2 * wantedLevel = 0`.
After a decay decrement the fleet size does not equal `2w`. -/
theorem fleet_size_after_decay_cex :
    ((runTicks opsQ [⟨30, ⟨1000, 0, 0⟩, ⟨0, 0, 0⟩, rndX⟩]
        ((PoliceSystem.init (Q := ℚ)).reportCrime opsQ rndX 1
          ⟨0, 0, 0⟩)).wantedLevel = 0
      ∧ (runTicks opsQ [⟨30, ⟨1000, 0, 0⟩, ⟨0, 0, 0⟩, rndX⟩]
          ((PoliceSystem.init (Q := ℚ)).reportCrime opsQ rndX 1
            ⟨0, 0, 0⟩)).policeCars.length = 1)
    ∧ (1 : ℕ) ≠ 2 * 0 := by
  refine ⟨⟨?_, ?_⟩, by norm_num⟩
  · decide
  · decide

/-- C2 (amended): on an accepted crime report the fleet spawns exactly
`2 * newLevel - count` cars (appended at the end of the roster), reaching
exactly `2 * newLevel` when it was under strength and spawning none when
at or above; on a decay decrement with the roster above `2 * newLevel`,
exactly one car — the most recently spawned — is removed.  After such a
decrement the count can therefore remain above `2 * wantedLevel`. -/
theorem fleet_reconcile_behavior {Q : Type} (ops : EngineOps Q) :
    (∀ (rnd : ℕ → ℚ × ℚ) (p : Vec3) (st : PoliceSystem Q) (w m : ℕ),
        ¬ 0 < st.crimeCooldown → st.wantedLevel = (w : ℚ) →
        ∃ newCars : List (PoliceCar Q),
          (st.reportCrime ops rnd (m : ℚ) p).policeCars
              = st.policeCars ++ newCars
            ∧ newCars.length
                = 2 * min 5 (w + m) - st.policeCars.length
            ∧ (st.policeCars.length ≤ 2 * min 5 (w + m) →
                (st.reportCrime ops rnd (m : ℚ) p).policeCars.length
                  = 2 * min 5 (w + m)))
    ∧ (∀ (rnd : ℕ → ℚ × ℚ) (dt : ℚ) (pp pv : Vec3) (st : PoliceSystem Q),
        checkPlayerInSight st.policeCars pp = false →
        0 < st.wantedLevel →
        wantedDecayTime ≤ st.wantedDecayTimer + dt →
        ratMax 0 (st.wantedLevel - 1) * 2 < (st.policeCars.length : ℚ) →
        carPositions (st.update ops rnd dt pp pv)
            = (st.policeCars.dropLast).map (fun c => c.pos)
          ∧ (st.update ops rnd dt pp pv).policeCars.length
              = st.policeCars.length - 1) := by
  constructor
  · intro rnd p st w m hcd hw
    have hmin : ratMin maxWantedLevel (st.wantedLevel + (m : ℚ))
        = ((min 5 (w + m) : ℕ) : ℚ) := by
      rw [hw, maxWantedLevel, ratMin_eq]
      norm_cast
    have hceil : ceilQ (((min 5 (w + m) : ℕ) : ℚ) * 2)
        = ((2 * min 5 (w + m) : ℕ) : ℤ) := by
      rw [ceilQ_eq]
      have hc : (((min 5 (w + m) : ℕ) : ℚ) * 2)
          = ((2 * min 5 (w + m) : ℕ) : ℚ) := by
        push_cast
        ring
      rw [hc, Int.ceil_natCast]
    have htn : (((2 * min 5 (w + m) : ℕ) : ℤ)
          - ((st.policeCars.length : ℕ) : ℤ)).toNat
        = 2 * min 5 (w + m) - st.policeCars.length := by
      omega
    refine ⟨(List.range ((2 * min 5 (w + m) - st.policeCars.length : ℕ))).map
      (fun k => spawnPoliceCar ops (rnd (st.policeCars.length + k)) p),
      ?_, ?_, ?_⟩
    · simp only [PoliceSystem.reportCrime, hcd, if_false,
        PoliceSystem.addWantedLevel, PoliceSystem.checkSpawnPolice, hmin,
        hceil, htn]
    · simp
    · intro hle
      simp only [PoliceSystem.reportCrime, hcd, if_false,
        PoliceSystem.addWantedLevel, PoliceSystem.checkSpawnPolice, hmin,
        hceil, htn, List.length_append, List.length_map, List.length_range]
      omega
  · intro rnd dt pp pv st hs hw ht hover
    have hcars : carPositions (st.update ops rnd dt pp pv)
        = (st.policeCars.dropLast).map (fun c => c.pos) := by
      unfold PoliceSystem.update carPositions
      dsimp only
      rw [hs]
      rw [if_neg (by simp)]
      rw [if_pos hw, if_pos ht, if_pos hover]
      rw [List.enum]
      exact enum_update_map_pos ops rnd dt _ _ pp st.policeCars.dropLast 0
    refine ⟨hcars, ?_⟩
    have hlen := congrArg List.length hcars
    simp only [carPositions, List.length_map, List.length_dropLast] at hlen
    exact hlen

theorem fleet_reconcile_behavior_witness :
    (∃ newCars : List (PoliceCar ℚ),
        ((PoliceSystem.init (Q := ℚ)).reportCrime opsQ rndX ((1 : ℕ) : ℚ)
            ⟨0, 0, 0⟩).policeCars
          = (PoliceSystem.init (Q := ℚ)).policeCars ++ newCars
        ∧ newCars.length = 2 * min 5 (0 + 1)
            - (PoliceSystem.init (Q := ℚ)).policeCars.length
        ∧ ((PoliceSystem.init (Q := ℚ)).policeCars.length
              ≤ 2 * min 5 (0 + 1) →
            ((PoliceSystem.init (Q := ℚ)).reportCrime opsQ rndX
                ((1 : ℕ) : ℚ) ⟨0, 0, 0⟩).policeCars.length
              = 2 * min 5 (0 + 1)))
    ∧ (carPositions ((⟨[⟨⟨50, 0, 0⟩, some 0, none, CarState.chase⟩,
            ⟨⟨60, 0, 0⟩, some 0, none, CarState.chase⟩], 1, 0, none, false,
            0⟩ : PoliceSystem ℚ).update opsQ rndX 30 ⟨1000, 0, 0⟩ ⟨0, 0, 0⟩)
          = [⟨50, 0, 0⟩]
        ∧ ((⟨[⟨⟨50, 0, 0⟩, some 0, none, CarState.chase⟩,
            ⟨⟨60, 0, 0⟩, some 0, none, CarState.chase⟩], 1, 0, none, false,
            0⟩ : PoliceSystem ℚ).update opsQ rndX 30 ⟨1000, 0, 0⟩
            ⟨0, 0, 0⟩).policeCars.length = 1) :=
  ⟨(fleet_reconcile_behavior opsQ).1 rndX ⟨0, 0, 0⟩ PoliceSystem.init 0 1
      (by norm_num [PoliceSystem.init]) rfl,
    (fleet_reconcile_behavior opsQ).2 rndX 30 ⟨1000, 0, 0⟩ ⟨0, 0, 0⟩
      ⟨[⟨⟨50, 0, 0⟩, some 0, none, CarState.chase⟩,
        ⟨⟨60, 0, 0⟩, some 0, none, CarState.chase⟩], 1, 0, none, false, 0⟩
      (by decide) (by norm_num) (by norm_num [wantedDecayTime])
      (by norm_num [ratMax])⟩

/-! ### Claim C3: bounds on the wanted level under arbitrary call
sequences -/

/-- Report events carry a nonnegative integer severity (the discipline of
the amended claim); tick events are unrestricted. -/
def eventSevOK : PoliceEvent → Prop
  | PoliceEvent.report s _ _ => ∃ n : ℕ, s = (n : ℚ)
  | PoliceEvent.tick _ => True

/-- The wanted level is a natural number at most 5. -/
def wantedLevelOK {Q : Type} (st : PoliceSystem Q) : Prop :=
  ∃ n : ℕ, n ≤ 5 ∧ st.wantedLevel = (n : ℚ)

theorem ratMax_decay_nat (n : ℕ) :
    ratMax 0 ((n : ℚ) - 1) = ((n - 1 : ℕ) : ℚ) := by
  rw [ratMax_eq]
  rcases n with _ | k
  · norm_num
  · have h1 : ((k + 1 : ℕ) : ℚ) - 1 = (k : ℚ) := by
      push_cast
      ring
    rw [h1, max_eq_right (Nat.cast_nonneg k)]
    norm_cast

theorem wantedLevelOK_report {Q : Type} (ops : EngineOps Q)
    (rnd : ℕ → ℚ × ℚ) (s : ℚ) (p : Vec3) (st : PoliceSystem Q)
    (hs : ∃ n : ℕ, s = (n : ℚ)) (h : wantedLevelOK st) :
    wantedLevelOK (st.reportCrime ops rnd s p) := by
  by_cases hcd : 0 < st.crimeCooldown
  · rw [reportCrime_dropped ops rnd s p st hcd]
    exact h
  · obtain ⟨m, rfl⟩ := hs
    obtain ⟨n, hn5, hn⟩ := h
    refine ⟨min 5 (n + m), min_le_left _ _, ?_⟩
    rw [reportCrime_accepted_wantedLevel ops rnd _ p st hcd, hn,
      ratMin_eq]
    norm_cast

theorem wantedLevelOK_update {Q : Type} (ops : EngineOps Q)
    (rnd : ℕ → ℚ × ℚ) (dt : ℚ) (pp pv : Vec3) (st : PoliceSystem Q)
    (h : wantedLevelOK st) :
    wantedLevelOK (st.update ops rnd dt pp pv) := by
  obtain ⟨n, hn5, hn⟩ := h
  rcases update_wanted_step ops rnd dt pp pv st with hw | hw
  · exact ⟨n, hn5, by rw [hw, hn]⟩
  · refine ⟨n - 1, le_trans (Nat.sub_le n 1) hn5, ?_⟩
    rw [hw, hn, ratMax_decay_nat]

theorem wantedLevelOK_runEvents {Q : Type} (ops : EngineOps Q) :
    ∀ (evs : List PoliceEvent) (st : PoliceSystem Q),
      (∀ ev ∈ evs, eventSevOK ev) → wantedLevelOK st →
      wantedLevelOK (runEvents ops evs st)
  | [], _, _, h => h
  | PoliceEvent.report s p rnd :: rest, st, hok, h =>
      wantedLevelOK_runEvents ops rest _
        (fun ev hev => hok ev (List.mem_cons_of_mem _ hev))
        (wantedLevelOK_report ops rnd s p st
          (hok _ (List.mem_cons_self _ _)) h)
  | PoliceEvent.tick a :: rest, st, hok, h =>
      wantedLevelOK_runEvents ops rest _
        (fun ev hev => hok ev (List.mem_cons_of_mem _ hev))
        (wantedLevelOK_update ops a.rnd a.dt a.playerPos a.playerVel st h)

/-- C3 counterexample: a single `reportCrime(-1, ...)` call from the
initial state drives the wanted level to -1 < 0 — `addWantedLevel` has no
lower clamp, so with a negative severity the level drops below 0. -/
theorem wanted_level_negative_cex :
    (runEvents opsQ [PoliceEvent.report (-1) ⟨0, 0, 0⟩ rndX]
        (PoliceSystem.init (Q := ℚ))).wantedLevel = -1
    ∧ ((-1 : ℚ) < 0) := by
  constructor
  · decide
  · norm_num

/-- C3 (amended): for every sequence of `reportCrime` calls with
*nonnegative integer* severities interleaved with arbitrary ticks,
starting from the initial state (wanted level 0), after every prefix of
the sequence the wanted level is an integer in [0, 5]. -/
theorem wanted_level_bounds {Q : Type} (ops : EngineOps Q)
    (evs : List PoliceEvent) (hok : ∀ ev ∈ evs, eventSevOK ev)
    (pre : List PoliceEvent) (hpre : pre <+: evs) :
    ∃ n : ℕ, n ≤ 5
      ∧ (runEvents ops pre (PoliceSystem.init (Q := Q))).wantedLevel
          = (n : ℚ) :=
  wantedLevelOK_runEvents ops pre PoliceSystem.init
    (fun ev hev => hok ev (hpre.subset hev))
    ⟨0, by norm_num, rfl⟩

theorem wanted_level_bounds_witness :
    ∃ n : ℕ, n ≤ 5
      ∧ (runEvents opsQ
            [PoliceEvent.report 1 ⟨0, 0, 0⟩ rndX,
              PoliceEvent.tick ⟨40, ⟨1000, 0, 0⟩, ⟨0, 0, 0⟩, rndX⟩,
              PoliceEvent.report 2 ⟨3, 0, 0⟩ rndX]
            (PoliceSystem.init (Q := ℚ))).wantedLevel = (n : ℚ) :=
  wanted_level_bounds opsQ
    [PoliceEvent.report 1 ⟨0, 0, 0⟩ rndX,
      PoliceEvent.tick ⟨40, ⟨1000, 0, 0⟩, ⟨0, 0, 0⟩, rndX⟩,
      PoliceEvent.report 2 ⟨3, 0, 0⟩ rndX]
    (by
      intro ev hev
      simp only [List.mem_cons, List.not_mem_nil, or_false] at hev
      rcases hev with rfl | rfl | rfl
      · exact ⟨1, by norm_num⟩
      · trivial
      · exact ⟨2, by norm_num⟩)
    _ (List.prefix_refl _)

/-! ### Claim C4: decay schedule over ticked time -/

/-- All given ticks keep the player position out of the 80-unit sight
radius of every position in `ps`. -/
def ticksFarFrom (ps : List Vec3) (ticks : List TickArgs) : Prop :=
  ∀ p ∈ ps, ∀ a ∈ ticks, ¬ dist2 p a.playerPos < 80 ^ 2

theorem sight_false_of_sublist {Q : Type} (st : PoliceSystem Q)
    (ps : List Vec3) (a : TickArgs) (ticks : List TickArgs)
    (hsub : List.Sublist (carPositions st) ps)
    (hfar : ticksFarFrom ps ticks) (ha : a ∈ ticks) :
    checkPlayerInSight st.policeCars a.playerPos = false := by
  apply sight_false_of_far
  intro c hc
  exact hfar c.pos (hsub.subset (List.mem_map_of_mem _ hc)) a ha

theorem runTicks_append {Q : Type} (ops : EngineOps Q) :
    ∀ (l1 l2 : List TickArgs) (st : PoliceSystem Q),
      runTicks ops (l1 ++ l2) st = runTicks ops l2 (runTicks ops l1 st)
  | [], _, _ => rfl
  | _ :: t1, l2, _ => runTicks_append ops t1 l2 _

/-- Zero-length remainder of a decay window: ticks of total duration 0
(each nonnegative, offender out of sight) change neither the wanted level
nor the (zero) decay timer. -/
theorem decay_zero_window {Q : Type} (ops : EngineOps Q) :
    ∀ (ticks : List TickArgs) (st : PoliceSystem Q) (ps : List Vec3),
      (∀ a ∈ ticks, 0 ≤ a.dt) → ticksFarFrom ps ticks →
      List.Sublist (carPositions st) ps →
      st.wantedDecayTimer = 0 → (ticks.map TickArgs.dt).sum = 0 →
      (runTicks ops ticks st).wantedLevel = st.wantedLevel
        ∧ (runTicks ops ticks st).wantedDecayTimer = 0
        ∧ List.Sublist (carPositions (runTicks ops ticks st)) ps
  | [], st, ps, _, _, hsub, ht, _ => ⟨rfl, ht, hsub⟩
  | a :: rest, st, ps, hnn, hfar, hsub, ht, hsum => by
      have hrest_nn : ∀ x ∈ rest, 0 ≤ x.dt :=
        fun x hx => hnn x (List.mem_cons_of_mem _ hx)
      have hsum_cons : a.dt + (rest.map TickArgs.dt).sum = 0 := by
        simpa [List.sum_cons] using hsum
      have hrest_sum_nn : 0 ≤ (rest.map TickArgs.dt).sum :=
        List.sum_nonneg (by
          intro x hx
          obtain ⟨b, hb, rfl⟩ := List.mem_map.mp hx
          exact hrest_nn b hb)
      have ha_nn : 0 ≤ a.dt := hnn a (List.mem_cons_self _ _)
      have ha0 : a.dt = 0 := by linarith
      have hrest0 : (rest.map TickArgs.dt).sum = 0 := by linarith
      have hsight : checkPlayerInSight st.policeCars a.playerPos = false :=
        sight_false_of_sublist st ps a (a :: rest) hsub hfar
          (List.mem_cons_self _ _)
      set st' := st.update ops a.rnd a.dt a.playerPos a.playerVel with hst'
      have hw' : st'.wantedLevel = st.wantedLevel := by
        by_cases hw : 0 < st.wantedLevel
        · have hnf : ¬ wantedDecayTime ≤ st.wantedDecayTimer + a.dt := by
            rw [ht, ha0, wantedDecayTime]
            norm_num
          exact (update_decay_noFire ops a.rnd a.dt a.playerPos a.playerVel
            st hsight hw hnf).1
        · exact (update_calm ops a.rnd a.dt a.playerPos a.playerVel st
            hsight hw).1
      have ht' : st'.wantedDecayTimer = 0 := by
        by_cases hw : 0 < st.wantedLevel
        · have hnf : ¬ wantedDecayTime ≤ st.wantedDecayTimer + a.dt := by
            rw [ht, ha0, wantedDecayTime]
            norm_num
          rw [(update_decay_noFire ops a.rnd a.dt a.playerPos a.playerVel
            st hsight hw hnf).2.1, ht, ha0]
          norm_num
        · rw [(update_calm ops a.rnd a.dt a.playerPos a.playerVel st
            hsight hw).2, ht]
      have hsub' : List.Sublist (carPositions st') ps :=
        (update_carPositions_sublist ops a.rnd a.dt a.playerPos
          a.playerVel st).trans hsub
      have hrec := decay_zero_window ops rest st' ps hrest_nn
        (fun p hp b hb => hfar p hp b (List.mem_cons_of_mem _ hb)) hsub'
        ht' hrest0
      rw [runTicks]
      exact ⟨hrec.1.trans hw', hrec.2.1, hrec.2.2⟩

/-- One full decay window: from wanted level `n > 0` and decay timer `t ≥
0`, no-sight nonnegative ticks whose total duration is exactly `30 - t`
(and positive) end with wanted level `n - 1` and a reset timer. -/
theorem decay_one_window {Q : Type} (ops : EngineOps Q) :
    ∀ (ticks : List TickArgs) (st : PoliceSystem Q) (ps : List Vec3)
      (n : ℕ),
      (∀ a ∈ ticks, 0 ≤ a.dt) → ticksFarFrom ps ticks →
      List.Sublist (carPositions st) ps →
      0 < n → st.wantedLevel = (n : ℚ) → 0 ≤ st.wantedDecayTimer →
      st.wantedDecayTimer + (ticks.map TickArgs.dt).sum = 30 →
      0 < (ticks.map TickArgs.dt).sum →
      (runTicks ops ticks st).wantedLevel = ((n - 1 : ℕ) : ℚ)
        ∧ (runTicks ops ticks st).wantedDecayTimer = 0
        ∧ List.Sublist (carPositions (runTicks ops ticks st)) ps
  | [], _, _, _, _, _, _, _, _, _, _, hpos => by
      simp at hpos
  | a :: rest, st, ps, n, hnn, hfar, hsub, hn, hw, ht0, htot, _ => by
      have hrest_nn : ∀ x ∈ rest, 0 ≤ x.dt :=
        fun x hx => hnn x (List.mem_cons_of_mem _ hx)
      have ha_nn : 0 ≤ a.dt := hnn a (List.mem_cons_self _ _)
      have hsum_cons : ((a :: rest).map TickArgs.dt).sum
          = a.dt + (rest.map TickArgs.dt).sum := by
        simp [List.sum_cons]
      have hrest_sum_nn : 0 ≤ (rest.map TickArgs.dt).sum :=
        List.sum_nonneg (by
          intro x hx
          obtain ⟨b, hb, rfl⟩ := List.mem_map.mp hx
          exact hrest_nn b hb)
      have hsight : checkPlayerInSight st.policeCars a.playerPos = false :=
        sight_false_of_sublist st ps a (a :: rest) hsub hfar
          (List.mem_cons_self _ _)
      have hwpos : 0 < st.wantedLevel := by
        rw [hw]
        exact_mod_cast hn
      have hfar_rest : ticksFarFrom ps rest :=
        fun p hp b hb => hfar p hp b (List.mem_cons_of_mem _ hb)
      set st' := st.update ops a.rnd a.dt a.playerPos a.playerVel with hst'
      have hsub' : List.Sublist (carPositions st') ps :=
        (update_carPositions_sublist ops a.rnd a.dt a.playerPos
          a.playerVel st).trans hsub
      rw [runTicks]
      by_cases hfire : wantedDecayTime ≤ st.wantedDecayTimer + a.dt
      · have hboundary : st.wantedDecayTimer + a.dt = 30 := by
          rw [hsum_cons] at htot
          rw [wantedDecayTime] at hfire
          linarith
        have hrest0 : (rest.map TickArgs.dt).sum = 0 := by
          rw [hsum_cons] at htot
          linarith
        have hw' : st'.wantedLevel = ((n - 1 : ℕ) : ℚ) := by
          rw [(update_decay_fire ops a.rnd a.dt a.playerPos a.playerVel st
            hsight hwpos hfire).1, hw, ratMax_decay_nat]
        have ht' : st'.wantedDecayTimer = 0 :=
          (update_decay_fire ops a.rnd a.dt a.playerPos a.playerVel st
            hsight hwpos hfire).2.1
        have hrec := decay_zero_window ops rest st' ps hrest_nn hfar_rest
          hsub' ht' hrest0
        exact ⟨hrec.1.trans hw', hrec.2.1, hrec.2.2⟩
      · have hw' : st'.wantedLevel = (n : ℚ) := by
          rw [(update_decay_noFire ops a.rnd a.dt a.playerPos a.playerVel
            st hsight hwpos hfire).1, hw]
        have ht' : st'.wantedDecayTimer = st.wantedDecayTimer + a.dt :=
          (update_decay_noFire ops a.rnd a.dt a.playerPos a.playerVel st
            hsight hwpos hfire).2.1
        have htot' : st'.wantedDecayTimer + (rest.map TickArgs.dt).sum
            = 30 := by
          rw [ht']
          rw [hsum_cons] at htot
          linarith
        have hpos' : 0 < (rest.map TickArgs.dt).sum := by
          rw [ht'] at htot'
          rw [wantedDecayTime] at hfire
          push_neg at hfire
          linarith
        exact decay_one_window ops rest st' ps n hrest_nn hfar_rest hsub'
          hn hw' (by rw [ht']; linarith) htot' hpos'

/-- C4 counterexample: a single tick of 90 seconds from wanted level 3
(no cars, so never sighted) performs only one decrement — the level is 2
after exactly 90 seconds of ticked time, not 0, because each tick
decrements at most once and the overshoot past the 30-second window is
discarded. -/
theorem decay_ninety_seconds_cex :
    (runTicks opsQ [⟨90, ⟨1000, 0, 0⟩, ⟨0, 0, 0⟩, rndX⟩]
        (⟨[], 3, 0, none, false, 0⟩ : PoliceSystem ℚ)).wantedLevel = 2
    ∧ (([⟨90, ⟨1000, 0, 0⟩, ⟨0, 0, 0⟩, rndX⟩] : List TickArgs).map
        TickArgs.dt).sum = 90
    ∧ ((2 : ℚ) ≠ 0) := by
  refine ⟨?_, ?_, by norm_num⟩
  · decide
  · decide

/-- C4 (amended): starting from wanted level 3 with a fresh decay timer
and the offender never sighted, (i) any nonnegative ticks summing to
exactly 30 seconds leave the wanted level at 2; (ii) ticks that align
with the 30-second windows (three consecutive groups each summing to 30
seconds) reach level 0 after 90 seconds — for misaligned ticks the
overshoot inside a window is discarded at the decrement, which can delay
later decrements past 90 seconds; (iii) each tick performs at most one
decrement even if more than one window has elapsed; and (iv) at level 0
no further decrement ever occurs. -/
theorem wanted_decay_schedule {Q : Type} (ops : EngineOps Q) :
    (∀ (ticks : List TickArgs) (st : PoliceSystem Q),
        (∀ a ∈ ticks, 0 ≤ a.dt) →
        ticksFarFrom (carPositions st) ticks →
        st.wantedLevel = 3 → st.wantedDecayTimer = 0 →
        (ticks.map TickArgs.dt).sum = 30 →
        (runTicks ops ticks st).wantedLevel = 2)
    ∧ (∀ (t1 t2 t3 : List TickArgs) (st : PoliceSystem Q),
        (∀ a ∈ t1 ++ t2 ++ t3, 0 ≤ a.dt) →
        ticksFarFrom (carPositions st) (t1 ++ t2 ++ t3) →
        st.wantedLevel = 3 → st.wantedDecayTimer = 0 →
        (t1.map TickArgs.dt).sum = 30 → (t2.map TickArgs.dt).sum = 30 →
        (t3.map TickArgs.dt).sum = 30 →
        (runTicks ops (t1 ++ t2 ++ t3) st).wantedLevel = 0)
    ∧ (∀ (rnd : ℕ → ℚ × ℚ) (dt : ℚ) (pp pv : Vec3) (st : PoliceSystem Q),
        (st.update ops rnd dt pp pv).wantedLevel = st.wantedLevel
          ∨ (st.update ops rnd dt pp pv).wantedLevel
              = ratMax 0 (st.wantedLevel - 1))
    ∧ (∀ (rnd : ℕ → ℚ × ℚ) (dt : ℚ) (pp pv : Vec3) (st : PoliceSystem Q),
        st.wantedLevel = 0 →
        (st.update ops rnd dt pp pv).wantedLevel = 0) := by
  have hzero : ∀ (rnd : ℕ → ℚ × ℚ) (dt : ℚ) (pp pv : Vec3)
      (st : PoliceSystem Q), st.wantedLevel = 0 →
      (st.update ops rnd dt pp pv).wantedLevel = 0 := by
    intro rnd dt pp pv st h0
    rcases update_wanted_step ops rnd dt pp pv st with hw | hw
    · rw [hw, h0]
    · rw [hw, h0, ratMax_eq]
      norm_num
  refine ⟨?_, ?_, fun rnd dt pp pv st =>
    update_wanted_step ops rnd dt pp pv st, hzero⟩
  · intro ticks st hnn hfar hw ht hsum
    have h := decay_one_window ops ticks st (carPositions st) 3 hnn hfar
      (List.Sublist.refl _) (by norm_num) (by rw [hw]; norm_num)
      (by rw [ht]) (by simp only [ht, hsum]; norm_num) (by rw [hsum]; norm_num)
    rw [h.1]
    norm_num
  · intro t1 t2 t3 st hnn hfar hw ht hs1 hs2 hs3
    have hnn1 : ∀ a ∈ t1, 0 ≤ a.dt := fun a ha => hnn a (by
      simp [List.mem_append, ha])
    have hnn2 : ∀ a ∈ t2, 0 ≤ a.dt := fun a ha => hnn a (by
      simp [List.mem_append, ha])
    have hnn3 : ∀ a ∈ t3, 0 ≤ a.dt := fun a ha => hnn a (by
      simp [List.mem_append, ha])
    have hfar1 : ticksFarFrom (carPositions st) t1 := fun p hp a ha =>
      hfar p hp a (by simp [List.mem_append, ha])
    have hfar2 : ticksFarFrom (carPositions st) t2 := fun p hp a ha =>
      hfar p hp a (by simp [List.mem_append, ha])
    have hfar3 : ticksFarFrom (carPositions st) t3 := fun p hp a ha =>
      hfar p hp a (by simp [List.mem_append, ha])
    have h1 := decay_one_window ops t1 st (carPositions st) 3 hnn1 hfar1
      (List.Sublist.refl _) (by norm_num) (by rw [hw]; norm_num)
      (by rw [ht]) (by simp only [ht, hs1]; norm_num) (by rw [hs1]; norm_num)
    have h2 := decay_one_window ops t2 (runTicks ops t1 st)
      (carPositions st) 2 hnn2 hfar2 h1.2.2 (by norm_num)
      (by rw [h1.1]) (by rw [h1.2.1])
      (by simp only [h1.2.1, hs2]; norm_num) (by rw [hs2]; norm_num)
    have h3 := decay_one_window ops t3 (runTicks ops t2 (runTicks ops t1 st))
      (carPositions st) 1 hnn3 hfar3 h2.2.2 (by norm_num)
      (by rw [h2.1]) (by rw [h2.2.1])
      (by simp only [h2.2.1, hs3]; norm_num) (by rw [hs3]; norm_num)
    rw [runTicks_append, runTicks_append, h3.1]
    norm_num

theorem wanted_decay_schedule_witness :
    ((runTicks opsQ [⟨30, ⟨1000, 0, 0⟩, ⟨0, 0, 0⟩, rndX⟩]
        (⟨[], 3, 0, none, false, 0⟩ : PoliceSystem ℚ)).wantedLevel = 2)
    ∧ ((runTicks opsQ
          ([⟨30, ⟨1000, 0, 0⟩, ⟨0, 0, 0⟩, rndX⟩]
            ++ [⟨10, ⟨1000, 0, 0⟩, ⟨0, 0, 0⟩, rndX⟩,
                ⟨20, ⟨1000, 0, 0⟩, ⟨0, 0, 0⟩, rndX⟩]
            ++ [⟨30, ⟨1000, 0, 0⟩, ⟨0, 0, 0⟩, rndX⟩])
          (⟨[], 3, 0, none, false, 0⟩ : PoliceSystem ℚ)).wantedLevel = 0)
    ∧ (((⟨[], 4, 0, none, false, 0⟩ : PoliceSystem ℚ).update opsQ rndX 70
          ⟨1000, 0, 0⟩ ⟨0, 0, 0⟩).wantedLevel = 4
      ∨ ((⟨[], 4, 0, none, false, 0⟩ : PoliceSystem ℚ).update opsQ rndX 70
          ⟨1000, 0, 0⟩ ⟨0, 0, 0⟩).wantedLevel = ratMax 0 (4 - 1))
    ∧ ((⟨[], 0, 0, none, false, 0⟩ : PoliceSystem ℚ).update opsQ rndX 50
        ⟨1000, 0, 0⟩ ⟨0, 0, 0⟩).wantedLevel = 0 :=
  ⟨(wanted_decay_schedule opsQ).1 [⟨30, ⟨1000, 0, 0⟩, ⟨0, 0, 0⟩, rndX⟩]
      ⟨[], 3, 0, none, false, 0⟩
      (by
        intro a ha
        simp only [List.mem_cons, List.not_mem_nil, or_false] at ha
        rw [ha]
        norm_num)
      (by
        intro p hp
        simp [carPositions] at hp)
      rfl rfl (by decide),
    (wanted_decay_schedule opsQ).2.1 [⟨30, ⟨1000, 0, 0⟩, ⟨0, 0, 0⟩, rndX⟩]
      [⟨10, ⟨1000, 0, 0⟩, ⟨0, 0, 0⟩, rndX⟩,
        ⟨20, ⟨1000, 0, 0⟩, ⟨0, 0, 0⟩, rndX⟩]
      [⟨30, ⟨1000, 0, 0⟩, ⟨0, 0, 0⟩, rndX⟩]
      ⟨[], 3, 0, none, false, 0⟩
      (by
        intro a ha
        simp only [List.append_assoc, List.mem_append, List.mem_cons,
          List.not_mem_nil, or_false] at ha
        rcases ha with rfl | (rfl | rfl) | rfl <;> norm_num)
      (by
        intro p hp
        simp [carPositions] at hp)
      rfl rfl (by decide) (by decide) (by decide),
    (wanted_decay_schedule opsQ).2.2.1 rndX 70 ⟨1000, 0, 0⟩
      ⟨0, 0, 0⟩ ⟨[], 4, 0, none, false, 0⟩,
    (wanted_decay_schedule opsQ).2.2.2 rndX 50 ⟨1000, 0, 0⟩ ⟨0, 0, 0⟩
      ⟨[], 0, 0, none, false, 0⟩ rfl⟩
